import Mathlib

/-!
Shallow embedding of the RAG question-answering repository
(document_processor.py, vector_store.py, chat_bot.py, app.py).

External collaborators (the ChromaDB persistent collection, the
SentenceTransformer embedding model, the Ollama HTTP generation backend,
the langchain loaders/splitter and wall-clock time) are modelled by their
interface contracts: their outputs (query replies, timings, HTTP outcomes,
split results) are explicit parameters of the embedded functions, and the
functions themselves are direct translations of the Python source.
-/

/-- Metadata values stored in a chunk/record metadata dict: the code stores
strings (source_file, file_type) and integers (chunk_id, chunk_size). -/
inductive MetaVal where
  | s (v : String)
  | n (v : Nat)
deriving Repr, DecidableEq

/-- Python dict assignment `m[k] = v`, modelled on an association list by
appending; reads take the most recent binding (see metaGet). -/
def metaSet (m : List (String × MetaVal)) (k : String) (v : MetaVal) :
    List (String × MetaVal) :=
  m ++ [(k, v)]

/-- Python dict read `m[k]` (most recent binding wins). -/
def metaGet (m : List (String × MetaVal)) (k : String) : Option MetaVal :=
  (m.reverse.find? (fun p => p.1 == k)).map (·.2)

/-- A record held by the ChromaDB collection: the generated id, its
insertion position `idx`, the chunk text and metadata, and `dist`, the
cosine distance the backend reports between this record's embedding and
the (fixed, ambient) query embedding — an external input of the store. -/
structure CRecord where
  id : Nat
  idx : Nat
  content : String
  metadata : List (String × MetaVal)
  dist : ℚ
deriving Repr, DecidableEq

/-- Result dict built by VectorStore.search (vector_store.py lines 81-86):
keys content, metadata, similarity, search_time. -/
structure SearchResult where
  content : String
  metadata : List (String × MetaVal)
  similarity : ℚ
  search_time : ℚ
deriving Repr, DecidableEq

/-- Strict ranking a k-NN reply respects when ties are broken stably by
insertion order: smaller distance first, equal distances in insertion
(idx) order. -/
def recLT (a b : CRecord) : Prop :=
  a.dist < b.dist ∨ (a.dist = b.dist ∧ a.idx < b.idx)

instance (a b : CRecord) : Decidable (recLT a b) := by
  unfold recLT; infer_instance

/-- Stable insertion into a distance-ascending list: the new record goes
before every record of equal distance already present (records already in
the list come from later insertion positions in sortByDist below). -/
def insertByDist (r : CRecord) : List CRecord → List CRecord
  | [] => [r]
  | x :: xs => if x.dist < r.dist then x :: insertByDist r xs else r :: x :: xs

/-- One particular distance-ascending enumeration of the records, used as
a definite reference reply for the external store's k-NN query (spec
section 6: nearest neighbors with distances). Its tie order (insertion
order) is a choice of the model, not a guarantee of the backend: results
that depend on the reply's tie order must instead treat the reply as an
arbitrary contract-conforming input of searchFormat. -/
def sortByDist : List CRecord → List CRecord
  | [] => []
  | x :: xs => insertByDist x (sortByDist xs)

/-- ChromaDB collection.query modelled as one definite contract-conforming
reply: the k nearest records, distance-ascending, as the parallel lists
(documents, metadatas, distances) the Python code reads back. The backend
does not promise the tie order this particular reply uses. -/
def collectionQuery (records : List CRecord) (k : Nat) :
    List String × List (List (String × MetaVal)) × List ℚ :=
  let top := (sortByDist records).take k
  (top.map (·.content), top.map (·.metadata), top.map (·.dist))

/-- Formatting loop of VectorStore.search (vector_store.py lines 77-86):
guard on a non-empty reply, then index documents/metadatas/distances in
parallel and convert each distance to a similarity. -/
def searchFormat (docs : List String) (metas : List (List (String × MetaVal)))
    (dists : List ℚ) (search_time : ℚ) : List SearchResult :=
  if docs.isEmpty then []
  else (List.range docs.length).map fun i =>
    { content := docs.getD i ""
      metadata := metas.getD i []
      similarity := 1 - dists.getD i 0
      search_time := search_time }

/-- VectorStore.search (vector_store.py lines 62-89): embed the query
(external), ask the collection for the top k, format with similarity
scores. -/
def VectorStore.search (records : List CRecord) (k : Nat) (search_time : ℚ) :
    List SearchResult :=
  let reply := collectionQuery records k
  searchFormat reply.1 reply.2.1 reply.2.2 search_time

/-- Record-to-result conversion performed by one iteration of the search
formatting loop. -/
def toResult (t : ℚ) (r : CRecord) : SearchResult :=
  { content := r.content, metadata := r.metadata
    similarity := 1 - r.dist, search_time := t }

theorem length_insertByDist (r : CRecord) (l : List CRecord) :
    (insertByDist r l).length = l.length + 1 := by
  induction l with
  | nil => rfl
  | cons x xs ih => by_cases h : x.dist < r.dist <;> simp [insertByDist, h, ih]

theorem perm_insertByDist (r : CRecord) (l : List CRecord) :
    (insertByDist r l).Perm (r :: l) := by
  induction l with
  | nil => rfl
  | cons x xs ih =>
    by_cases h : x.dist < r.dist
    · simp only [insertByDist, if_pos h]
      exact (ih.cons x).trans (List.Perm.swap r x xs)
    · simp [insertByDist, if_neg h]

theorem mem_insertByDist {y r : CRecord} {l : List CRecord} :
    y ∈ insertByDist r l ↔ y = r ∨ y ∈ l := by
  constructor
  · intro h; have := (perm_insertByDist r l).mem_iff.mp h; simpa using this
  · intro h; exact (perm_insertByDist r l).mem_iff.mpr (by simpa using h)

theorem sortByDist_perm (l : List CRecord) : (sortByDist l).Perm l := by
  induction l with
  | nil => rfl
  | cons x xs ih => exact (perm_insertByDist x (sortByDist xs)).trans (ih.cons x)

theorem length_sortByDist (l : List CRecord) :
    (sortByDist l).length = l.length := (sortByDist_perm l).length_eq

theorem search_eq (records : List CRecord) (k : Nat) (t : ℚ) :
    VectorStore.search records k t =
      ((sortByDist records).take k).map (toResult t) := by
  unfold VectorStore.search collectionQuery searchFormat
  set top := (sortByDist records).take k with htop
  by_cases hempty : top = []
  · simp [hempty, toResult]
  · have hne : ¬ (top.map (·.content)).isEmpty := by
      simpa [List.isEmpty_iff] using hempty
    simp only [hne, if_neg, List.length_map]
    apply List.ext_getElem
    · simp
    · intro i h1 h2
      have hi : i < top.length := by simpa using h1
      simp [List.getD, List.getElem?_eq_getElem, hi, toResult]

/-- Outcome of the HTTP call requests.post(self.ollama_url, ...) as seen by
the surrounding Python code: either a response object with a status code
and a JSON payload (an association of string fields), or a raised
exception (connection error or timeout) carrying its message. -/
inductive PostOutcome where
  | ok (status : Nat) (payload : List (String × String))
  | raised (e : String)
deriving Repr, DecidableEq

/-- Python dict lookup on the decoded JSON payload. -/
def lookupField (payload : List (String × String)) (k : String) : Option String :=
  (payload.reverse.find? (fun p => p.1 == k)).map (·.2)

/-- Result dict of ChatBot.generate_response (chat_bot.py lines 54-71):
model_used is only present in the HTTP-200 branch, hence Option. -/
structure GenReply where
  response : String
  generation_time : ℚ
  model_used : Option String
  success : Bool
deriving Repr, DecidableEq

/-- ChatBot.generate_response (chat_bot.py lines 33-71): on HTTP 200 read
result["response"] (a missing field raises KeyError inside the same try
and is caught by the generic except clause, landing in the connection
error shape); on a non-200 status report it; on a raised exception report
its message. `gtime` is the measured wall-clock generation time. -/
def ChatBot.generate_response (model_name : String) (outcome : PostOutcome)
    (gtime : ℚ) : GenReply :=
  match outcome with
  | .raised e =>
      { response := "Error connecting to Ollama: " ++ e
        generation_time := gtime, model_used := none, success := false }
  | .ok status payload =>
      if status = 200 then
        match lookupField payload "response" with
        | some r =>
            { response := r, generation_time := gtime
              model_used := some model_name, success := true }
        | none =>
            { response := "Error connecting to Ollama: KeyError: response"
              generation_time := gtime, model_used := none, success := false }
      else
        { response := "Error: HTTP " ++ toString status
          generation_time := gtime, model_used := none, success := false }

/-- Response dict of ChatBot.chat: the empty-retrieval short-circuit
(chat_bot.py lines 100-107) omits the model_used and success keys, hence
both are Option; a missing key reads as none. -/
structure ChatResponse where
  answer : String
  sources : List SearchResult
  retrieval_time : ℚ
  generation_time : ℚ
  total_time : ℚ
  model_used : Option String
  success : Option Bool
deriving Repr, DecidableEq

/-- ChatBot.chat (chat_bot.py lines 91-125): retrieve top k, short-circuit
when nothing was retrieved, otherwise build the prompt (not modelled: it
does not influence any returned field) and call generate_response. The
store contents, the measured times and the HTTP outcome are explicit
external inputs. -/
def ChatBot.chat (model_name : String) (records : List CRecord) (k : Nat)
    (retrieval_time : ℚ) (outcome : PostOutcome) (gtime : ℚ)
    (search_time : ℚ) : ChatResponse :=
  let relevant_docs := VectorStore.search records k search_time
  if relevant_docs.isEmpty then
    { answer := "No relevant documents found in the database."
      sources := []
      retrieval_time := retrieval_time
      generation_time := 0
      total_time := retrieval_time
      model_used := none
      success := none }
  else
    let generation_result := ChatBot.generate_response model_name outcome gtime
    { answer := generation_result.response
      sources := relevant_docs
      retrieval_time := retrieval_time
      generation_time := generation_result.generation_time
      total_time := retrieval_time + generation_result.generation_time
      model_used := some model_name
      success := some generation_result.success }

/-- Failure of the generation backend call as described by the code paths
of generate_response: a raised exception (network/connection error or
timeout), a non-200 HTTP status, or a 200 payload missing the "response"
field. -/
def backendFailure (o : PostOutcome) : Prop :=
  (∃ e, o = .raised e) ∨
  (∃ s p, o = .ok s p ∧ s ≠ 200) ∨
  (∃ p, o = .ok 200 p ∧ lookupField p "response" = none)

/-- langchain Document: page_content plus metadata, as used by the code. -/
structure Document where
  page_content : String
  metadata : List (String × MetaVal)
deriving Repr, DecidableEq

/-- Python errors crossing the DocumentProcessor boundary: the ValueError
raised for an unsupported extension, and errors re-raised from the
external loader. -/
inductive PyError where
  | valueError (msg : String)
  | loadError (msg : String)
deriving Repr, DecidableEq

def pyErrorStr : PyError → String
  | .valueError m => m
  | .loadError m => m

/-- Characters of the final path component (os.path.basename). -/
def basenameChars (cs : List Char) : List Char :=
  (cs.reverse.takeWhile (fun c => c ≠ '/')).reverse

def pyBasename (p : String) : String := ⟨basenameChars p.data⟩

/-- Extension of a basename per os.path.splitext: everything from the last
dot on, provided some non-dot character of the basename precedes that dot
(so ".txt" and "...." have no extension). -/
def extChars (b : List Char) : List Char :=
  let r := b.reverse
  let pre := r.takeWhile (fun c => c ≠ '.')
  if pre.length = r.length then []
  else if ((r.drop (pre.length + 1)).reverse).any (fun c => c ≠ '.') then
    '.' :: pre.reverse
  else []

/-- Second component of os.path.splitext(file_path). -/
def splitextExt (p : String) : String := ⟨extChars (basenameChars p.data)⟩

/-- Python str.lower, character-wise. -/
def lowerStr (s : String) : String := ⟨s.data.map Char.toLower⟩

/-- Which external langchain loader the code instantiates. -/
inductive LoaderKind where
  | pdf
  | text
deriving Repr, DecidableEq

/-- DocumentProcessor.load_document (document_processor.py lines 19-38):
dispatch on the lowered extension; PyPDFLoader for .pdf, TextLoader for
.txt/.md, otherwise raise ValueError before touching any loader. Loader
failures are printed and re-raised, so they propagate unchanged. The
external loader is a parameter. -/
def DocumentProcessor.load_document
    (loader : LoaderKind → String → Except String (List Document))
    (file_path : String) : Except PyError (List Document) :=
  let ext := splitextExt file_path
  if lowerStr ext = ".pdf" then
    match loader .pdf file_path with
    | .ok docs => .ok docs
    | .error m => .error (.loadError m)
  else if lowerStr ext = ".txt" ∨ lowerStr ext = ".md" then
    match loader .text file_path with
    | .ok docs => .ok docs
    | .error m => .error (.loadError m)
  else
    .error (.valueError ("Unsupported file type: " ++ ext))

/-- DocumentProcessor.split_documents (document_processor.py lines 40-55):
run the external recursive splitter, then stamp chunk_id = position and
chunk_size = content length into each chunk's metadata. -/
def DocumentProcessor.split_documents (splitter : List Document → List Document)
    (documents : List Document) : List Document :=
  let chunks := splitter documents
  chunks.enum.map fun p =>
    { p.2 with
      metadata := metaSet (metaSet p.2.metadata "chunk_id" (.n p.1))
        "chunk_size" (.n p.2.page_content.length) }

/-- DocumentProcessor.process_file (document_processor.py lines 57-78):
load, split, then stamp source_file and file_type into each chunk;
errors are printed and re-raised, so they propagate unchanged. -/
def DocumentProcessor.process_file
    (loader : LoaderKind → String → Except String (List Document))
    (splitter : List Document → List Document)
    (file_path : String) : Except PyError (List Document) :=
  match DocumentProcessor.load_document loader file_path with
  | .error e => .error e
  | .ok documents =>
      let chunks := DocumentProcessor.split_documents splitter documents
      .ok (chunks.map fun c =>
        { c with
          metadata := metaSet (metaSet c.metadata "source_file"
              (.s (pyBasename file_path)))
            "file_type" (.s (splitextExt file_path)) })

/-- State of the VectorStore: the persistent collection in insertion
order, plus the fresh-id supply. uuid.uuid4() is modelled as an injective
supply of never-before-used identifiers, the property the code relies on. -/
structure VectorStore where
  records : List CRecord
  nextId : Nat
deriving Repr, DecidableEq

/-- Ingestion report dict returned by VectorStore.add_documents
(vector_store.py lines 54-60). -/
structure IngestReport where
  total_docs : Nat
  embedding_time : ℚ
  storage_time : ℚ
  total_time : ℚ
  db_size : Nat
deriving Repr, DecidableEq

/-- Records inserted by one add_documents call: fresh ids from the supply,
insertion positions appended after the existing records. The dist field
(per-query cosine distance, an external input of the search model) is
irrelevant to insertion and set to 0. -/
def VectorStore.newRecords (store : VectorStore) (documents : List Document) :
    List CRecord :=
  (List.range documents.length).map fun i =>
    { id := store.nextId + i
      idx := store.records.length + i
      content := (documents.getD i ⟨"", []⟩).page_content
      metadata := (documents.getD i ⟨"", []⟩).metadata
      dist := 0 }

/-- VectorStore.add_documents (vector_store.py lines 26-60): embed all
texts (external, timed), draw fresh ids, commit the batch with a single
collection.add call — atomic per the backend contract, so a storage
failure (modelled by the storageFails input) raises out of the method
leaving the collection unchanged — and report counts and timings. -/
def VectorStore.add_documents (store : VectorStore) (documents : List Document)
    (embedding_time storage_time total_time : ℚ) (storageFails : Bool) :
    Except String IngestReport × VectorStore :=
  if storageFails then
    (.error "StorageError: collection.add failed", store)
  else
    let store2 : VectorStore :=
      { records := store.records ++ store.newRecords documents
        nextId := store.nextId + documents.length }
    (.ok { total_docs := documents.length
           embedding_time := embedding_time
           storage_time := storage_time
           total_time := total_time
           db_size := store2.records.length }, store2)

/-- Two-decimal float rendering of the Gradio templates, abstracted to a
plain rendering of the rational value. -/
def fmt2f (q : ℚ) : String := toString q

/-- Source preview in app.ask_question (app.py line 75): first 200
characters plus an ellipsis for longer contents. -/
def preview (c : String) : String :=
  if c.length > 200 then (⟨c.data.take 200⟩ : String) ++ "..." else c

/-- Markdown answer template of app.ask_question (app.py lines 60-68). -/
def formatAnswerText (ans : String) (rt gt tt : ℚ) (m : String) : String :=
  "**Answer:**\n" ++ ans ++ "\n\n---\n**Performance:**\n⚡ Retrieval: " ++
    fmt2f rt ++ "s\n🤖 Generation: " ++ fmt2f gt ++ "s\n⏱️ Total: " ++
    fmt2f tt ++ "s\n🧠 Model: " ++ m

/-- Markdown sources template of app.ask_question (app.py lines 70-83). -/
def formatSourcesText (sources : List SearchResult) : String :=
  if sources.isEmpty then "No sources found."
  else
    "**📚 Sources Used:**\n\n" ++
      String.join (sources.enum.map fun p =>
        "**Source " ++ toString (p.1 + 1) ++ "** (Similarity: " ++
          fmt2f (p.2.similarity * 100) ++ "%)\n" ++ preview p.2.content ++
          "\n\n---\n")

/-- Python str.strip default whitespace characters (ASCII subset). -/
def isPyWhite (c : Char) : Bool :=
  c == ' ' || c == '\t' || c == '\n' || c == '\r' || c == '\x0b' || c == '\x0c'

/-- Python str.strip with no arguments. -/
def pyStrip (s : String) : String :=
  ⟨((s.data.dropWhile isPyWhite).reverse.dropWhile isPyWhite).reverse⟩

/-- RAGApp.ask_question (app.py lines 47-88): blank questions are answered
with a fixed prompt before anything else runs; otherwise chat is called
(the chat pipeline is the chatFn parameter) and the response dict is read.
Reading the success or model_used key of a dict that lacks it raises
KeyError, caught by the enclosing except clause (Python renders the missing
key in quotes; the rendering here elides them). -/
def RAGApp.ask_question (chatFn : String → Nat → ChatResponse)
    (question : String) (k_value : Nat) : String × String :=
  if pyStrip question = "" then
    ("Please enter a question.", "No sources available.")
  else
    let response := chatFn question k_value
    match response.success with
    | none => ("❌ Error: KeyError: success", "Error occurred")
    | some s =>
      if s = false then ("❌ Error: " ++ response.answer, "No sources")
      else
        match response.model_used with
        | none => ("❌ Error: KeyError: model_used", "Error occurred")
        | some m =>
            (formatAnswerText response.answer response.retrieval_time
              response.generation_time response.total_time m,
             formatSourcesText response.sources)

/-- RAGApp.upload_and_process_file (app.py lines 14-45): process the file,
add the chunks to the vector store, and render feedback (the long success
template is abbreviated to its claim-relevant data); any raised error is
caught and rendered, leaving the store as the failed call left it. -/
def RAGApp.upload_and_process_file
    (loader : LoaderKind → String → Except String (List Document))
    (splitter : List Document → List Document)
    (store : VectorStore) (file : Option String)
    (embedding_time storage_time total_time : ℚ) (storageFails : Bool) :
    String × VectorStore :=
  match file with
  | none => ("❌ No file uploaded", store)
  | some name =>
    match DocumentProcessor.process_file loader splitter name with
    | .error e => ("❌ **Error processing file**: " ++ pyErrorStr e, store)
    | .ok chunks =>
      match VectorStore.add_documents store chunks embedding_time storage_time
          total_time storageFails with
      | (.error e, store2) => ("❌ **Error processing file**: " ++ e, store2)
      | (.ok info, store2) =>
          ("✅ **File processed successfully!** Chunks created: " ++
            toString chunks.length ++ ", total documents in DB: " ++
            toString info.db_size, store2)

theorem string_append_ne_empty {a : String} (b : String) (h : a.data ≠ []) :
    a ++ b ≠ "" := by
  intro hc
  have hd := congrArg String.data hc
  rw [String.data_append] at hd
  exact h (List.append_eq_nil.mp hd).1

/-- C1: the claim says the empty-retrieval short-circuit of chat returns
success = true; in the code (chat_bot.py lines 100-107) the returned dict
carries the fixed no-documents answer and generation_time 0 and never
consults the generation backend (the result is the same for every backend
outcome), but it has no success key at all — modelled as success = none —
so the caller's read of response["success"] in app.py line 56 raises
KeyError. -/
theorem chat_empty_retrieval_shape (model_name : String)
    (records : List CRecord) (k : Nat) (rt : ℚ) (o : PostOutcome) (gt st : ℚ)
    (h : VectorStore.search records k st = []) :
    ChatBot.chat model_name records k rt o gt st =
      { answer := "No relevant documents found in the database."
        sources := []
        retrieval_time := rt
        generation_time := 0
        total_time := rt
        model_used := none
        success := none } := by
  unfold ChatBot.chat
  simp [h]

theorem chat_empty_retrieval_shape_witness :
    VectorStore.search [] 3 0 = [] ∧
    ChatBot.chat "mistral" [] 3 (1/2) (.raised "boom") 5 0 =
      { answer := "No relevant documents found in the database."
        sources := []
        retrieval_time := 1/2
        generation_time := 0
        total_time := 1/2
        model_used := none
        success := none } :=
  ⟨by simp [VectorStore.search, collectionQuery, sortByDist, searchFormat],
   chat_empty_retrieval_shape "mistral" [] 3 (1/2) (.raised "boom") 5 0
     (by simp [VectorStore.search, collectionQuery, sortByDist, searchFormat])⟩

/-- C2: when retrieval is non-empty, every generation-backend failure
(raised connection/timeout exception, non-200 status, or 200 payload
missing the response field) yields a chat response with success = false
and a non-empty diagnostic answer; chat is a total function of these
outcomes, so no backend exception escapes it. -/
theorem chat_backend_failure_captured (model_name : String)
    (records : List CRecord) (k : Nat) (rt : ℚ) (o : PostOutcome) (gt st : ℚ)
    (hne : VectorStore.search records k st ≠ [])
    (hf : backendFailure o) :
    (ChatBot.chat model_name records k rt o gt st).success = some false ∧
    (ChatBot.chat model_name records k rt o gt st).answer ≠ "" := by
  have hemp : (VectorStore.search records k st).isEmpty = false := by
    simpa [List.isEmpty_iff] using hne
  unfold ChatBot.chat
  simp only [hemp, Bool.false_eq_true, if_false]
  rcases hf with ⟨e, rfl⟩ | ⟨s, p, rfl, hs⟩ | ⟨p, rfl, hl⟩
  · exact ⟨rfl, string_append_ne_empty e (by decide)⟩
  · refine ⟨?_, ?_⟩ <;> simp [ChatBot.generate_response, hs]
    exact string_append_ne_empty (toString s) (by decide)
  · refine ⟨?_, ?_⟩ <;> simp [ChatBot.generate_response, hl]

theorem chat_backend_failure_captured_witness :
    VectorStore.search [⟨0, 0, "doc", [], 0⟩] 3 0 ≠ [] ∧
    (ChatBot.chat "mistral" [⟨0, 0, "doc", [], 0⟩] 3 1 (.ok 500 []) 2 0).success
        = some false ∧
    (ChatBot.chat "mistral" [⟨0, 0, "doc", [], 0⟩] 3 1 (.ok 500 []) 2 0).answer
        ≠ "" :=
  ⟨by decide,
   chat_backend_failure_captured "mistral" [⟨0, 0, "doc", [], 0⟩] 3 1
     (.ok 500 []) 2 0 (by decide)
     (Or.inr (Or.inl ⟨500, [], rfl, by decide⟩))⟩

/-- C9: whenever retrieval is non-empty (so chat reaches the generation
step), the returned total_time is retrieval_time plus generation_time and
the returned success flag is exactly the success flag of the backend call
result (chat_bot.py lines 113-125). -/
theorem chat_totals_and_success (model_name : String) (records : List CRecord)
    (k : Nat) (rt : ℚ) (o : PostOutcome) (gt st : ℚ)
    (hne : VectorStore.search records k st ≠ []) :
    (ChatBot.chat model_name records k rt o gt st).total_time =
      (ChatBot.chat model_name records k rt o gt st).retrieval_time +
      (ChatBot.chat model_name records k rt o gt st).generation_time ∧
    (ChatBot.chat model_name records k rt o gt st).success =
      some (ChatBot.generate_response model_name o gt).success := by
  have hemp : (VectorStore.search records k st).isEmpty = false := by
    simpa [List.isEmpty_iff] using hne
  unfold ChatBot.chat
  simp [hemp]

theorem chat_totals_and_success_witness :
    VectorStore.search [⟨0, 0, "doc", [], 0⟩] 2 0 ≠ [] ∧
    (ChatBot.chat "mistral" [⟨0, 0, "doc", [], 0⟩] 2 1
        (.ok 200 [("response", "hi")]) 2 0).total_time =
      (ChatBot.chat "mistral" [⟨0, 0, "doc", [], 0⟩] 2 1
        (.ok 200 [("response", "hi")]) 2 0).retrieval_time +
      (ChatBot.chat "mistral" [⟨0, 0, "doc", [], 0⟩] 2 1
        (.ok 200 [("response", "hi")]) 2 0).generation_time ∧
    (ChatBot.chat "mistral" [⟨0, 0, "doc", [], 0⟩] 2 1
        (.ok 200 [("response", "hi")]) 2 0).success =
      some (ChatBot.generate_response "mistral"
        (.ok 200 [("response", "hi")]) 2).success :=
  ⟨by decide,
   chat_totals_and_success "mistral" [⟨0, 0, "doc", [], 0⟩] 2 1
     (.ok 200 [("response", "hi")]) 2 0 (by decide)⟩

/-- C10: a question that is empty or all whitespace makes ask_question
return the fixed prompt pair, and the result is the same for every chat
pipeline chatFn, so neither retrieval nor generation is consulted
(app.py lines 47-54). -/
theorem ask_question_blank_short_circuit
    (chatFn : String → Nat → ChatResponse) (question : String) (k_value : Nat)
    (h : ∀ c ∈ question.data, isPyWhite c) :
    RAGApp.ask_question chatFn question k_value =
      ("Please enter a question.", "No sources available.") := by
  have hs : pyStrip question = "" := by
    unfold pyStrip
    have h1 : question.data.dropWhile isPyWhite = [] :=
      List.dropWhile_eq_nil_iff.mpr h
    simp [h1]
  unfold RAGApp.ask_question
  simp [hs]

theorem ask_question_blank_short_circuit_witness :
    (∀ c ∈ (" \t\n" : String).data, isPyWhite c) ∧
    RAGApp.ask_question
      (fun _ _ => ⟨" answer", [], 0, 0, 0, some "mistral", some true⟩)
      " \t\n" 3 =
      ("Please enter a question.", "No sources available.") :=
  ⟨by decide,
   ask_question_blank_short_circuit
     (fun _ _ => ⟨" answer", [], 0, 0, 0, some "mistral", some true⟩)
     " \t\n" 3 (by decide)⟩

/-- C3: when the index holds fewer than k records, search returns exactly
the held records, each formatted once (a permutation of formatting every
record, never padded, never an error), and search on an empty index
returns the empty sequence. -/
theorem search_fewer_than_k (records : List CRecord) (k : Nat) (t : ℚ)
    (h : records.length < k) :
    (VectorStore.search records k t).length = records.length ∧
    (VectorStore.search records k t).Perm (records.map (toResult t)) ∧
    VectorStore.search [] k t = [] := by
  have htake : (sortByDist records).take k = sortByDist records :=
    List.take_of_length_le (by rw [length_sortByDist]; omega)
  refine ⟨?_, ?_, ?_⟩
  · rw [search_eq, htake]
    simp [length_sortByDist]
  · rw [search_eq, htake]
    exact (sortByDist_perm records).map (toResult t)
  · simp [search_eq, sortByDist]

theorem search_fewer_than_k_witness :
    ([⟨0, 0, "doc", [], 0⟩] : List CRecord).length < 5 ∧
    (VectorStore.search [⟨0, 0, "doc", [], 0⟩] 5 0).length = 1 ∧
    (VectorStore.search [⟨0, 0, "doc", [], 0⟩] 5 0).Perm
      ([⟨0, 0, "doc", [], 0⟩].map (toResult 0)) ∧
    VectorStore.search [] 5 0 = [] :=
  ⟨by decide,
   (search_fewer_than_k [⟨0, 0, "doc", [], 0⟩] 5 0 (by decide)).1,
   (search_fewer_than_k [⟨0, 0, "doc", [], 0⟩] 5 0 (by decide)).2.1,
   (search_fewer_than_k [⟨0, 0, "doc", [], 0⟩] 5 0 (by decide)).2.2⟩

/-- C4 counterexample: the claim's stable-tie-break clause fails on the
code. The collection holds record a (inserted first, idx 0) and record b
(idx 1), both at cosine distance 1 from the query. The backend reply
listing b before a enumerates exactly the collection's records with
non-decreasing distances — a reply conforming to the spec section 6 k-NN
contract, which fixes no tie order — and the formatting loop of search
returns it verbatim, so the returned equal-similarity pair is not in
insertion order: the program does not enforce the claimed tie-break. -/
theorem search_tie_break_counterexample :
    ([⟨1, 1, "b", [], 1⟩, ⟨0, 0, "a", [], 1⟩] : List CRecord).Perm
      [⟨0, 0, "a", [], 1⟩, ⟨1, 1, "b", [], 1⟩] ∧
    (([⟨1, 1, "b", [], 1⟩, ⟨0, 0, "a", [], 1⟩] : List CRecord).map
      (·.dist)).Pairwise (· ≤ ·) ∧
    searchFormat ["b", "a"] [[], []] [1, 1] 0 =
      [toResult 0 ⟨1, 1, "b", [], 1⟩, toResult 0 ⟨0, 0, "a", [], 1⟩] ∧
    ¬ (([⟨1, 1, "b", [], 1⟩, ⟨0, 0, "a", [], 1⟩] : List CRecord).Pairwise
      recLT) := by
  refine ⟨List.Perm.swap _ _ _, by decide, rfl, by decide⟩

/-- C4 (amended): for every backend reply whose distances are listed in
non-decreasing order — all the spec section 6 store contract guarantees
about a k-NN reply — the sequence of SearchResults the formatting loop of
search returns from it is ordered highest similarity first, with
similarity non-increasing along the sequence; the tie order among equal
distances is whatever the backend chose. -/
theorem search_results_nonincreasing (docs : List String)
    (metas : List (List (String × MetaVal))) (dists : List ℚ) (t : ℚ)
    (hle : docs.length ≤ dists.length)
    (hsorted : dists.Pairwise (· ≤ ·)) :
    (searchFormat docs metas dists t).Pairwise
      (fun a b => b.similarity ≤ a.similarity) := by
  unfold searchFormat
  by_cases hd : docs.isEmpty = true
  · rw [if_pos hd]
    exact List.Pairwise.nil
  · rw [if_neg hd]
    rw [List.pairwise_iff_getElem]
    intro i j hi hj hij
    simp only [List.length_map, List.length_range] at hi hj
    have hi2 : i < dists.length := lt_of_lt_of_le hi hle
    have hj2 : j < dists.length := lt_of_lt_of_le hj hle
    have hdij : dists.getD i 0 ≤ dists.getD j 0 := by
      rw [List.getD_eq_getElem?_getD, List.getElem?_eq_getElem hi2,
        List.getD_eq_getElem?_getD, List.getElem?_eq_getElem hj2]
      exact List.pairwise_iff_getElem.mp hsorted i j hi2 hj2 hij
    simp only [List.getElem_map, List.getElem_range]
    linarith

theorem search_results_nonincreasing_witness :
    (["a", "b"] : List String).length ≤ ([0, 1] : List ℚ).length ∧
    ([0, 1] : List ℚ).Pairwise (· ≤ ·) ∧
    (searchFormat ["a", "b"] [[], []] [0, 1] 0).Pairwise
      (fun a b => b.similarity ≤ a.similarity) :=
  ⟨by decide, by decide,
   search_results_nonincreasing ["a", "b"] [[], []] [0, 1] 0
     (by decide) (by decide)⟩

/-- C7: every search result's similarity is 1 minus the cosine distance
the store reported for the record it formats, and when every reported
distance lies in [0, 2] (the range of a cosine distance) the similarity
lies in [-1, 1]. -/
theorem search_similarity_is_one_minus_distance (records : List CRecord)
    (k : Nat) (t : ℚ)
    (hd : ∀ r ∈ records, 0 ≤ r.dist ∧ r.dist ≤ 2) :
    ∀ res ∈ VectorStore.search records k t,
      (∃ r ∈ records, res = toResult t r ∧ res.similarity = 1 - r.dist) ∧
      -1 ≤ res.similarity ∧ res.similarity ≤ 1 := by
  intro res hres
  rw [search_eq] at hres
  rcases List.mem_map.mp hres with ⟨r, hrtop, rfl⟩
  have hrrec : r ∈ records :=
    (sortByDist_perm records).mem_iff.mp
      ((List.take_sublist k (sortByDist records)).mem hrtop)
  rcases hd r hrrec with ⟨h0, h2⟩
  refine ⟨⟨r, hrrec, rfl, rfl⟩, ?_, ?_⟩ <;> simp only [toResult] <;> linarith

theorem search_similarity_is_one_minus_distance_witness :
    (∀ r ∈ ([⟨0, 0, "a", [], 1/2⟩] : List CRecord), 0 ≤ r.dist ∧ r.dist ≤ 2) ∧
    (∀ res ∈ VectorStore.search [⟨0, 0, "a", [], 1/2⟩] 1 0,
      (∃ r ∈ ([⟨0, 0, "a", [], 1/2⟩] : List CRecord),
        res = toResult 0 r ∧ res.similarity = 1 - r.dist) ∧
      -1 ≤ res.similarity ∧ res.similarity ≤ 1) :=
  ⟨by intro r hr; rcases List.mem_singleton.mp hr with rfl; norm_num,
   search_similarity_is_one_minus_distance [⟨0, 0, "a", [], 1/2⟩] 1 0
     (by intro r hr; rcases List.mem_singleton.mp hr with rfl; norm_num)⟩

/-- C5: a path whose (lowered) extension is none of .pdf, .txt, .md makes
load_document fail with the ValueError raised for unsupported file types
(the repository's realization of UnsupportedFormatError), and the upload
pipeline then leaves the vector store untouched: the failure precedes any
store mutation. -/
theorem load_unsupported_extension
    (loader : LoaderKind → String → Except String (List Document))
    (splitter : List Document → List Document)
    (store : VectorStore) (p : String) (tE tS tT : ℚ) (fails : Bool)
    (h1 : lowerStr (splitextExt p) ≠ ".pdf")
    (h2 : lowerStr (splitextExt p) ≠ ".txt")
    (h3 : lowerStr (splitextExt p) ≠ ".md") :
    DocumentProcessor.load_document loader p =
      .error (.valueError ("Unsupported file type: " ++ splitextExt p)) ∧
    (RAGApp.upload_and_process_file loader splitter store (some p)
        tE tS tT fails).2 = store := by
  have hload : DocumentProcessor.load_document loader p =
      .error (.valueError ("Unsupported file type: " ++ splitextExt p)) := by
    unfold DocumentProcessor.load_document
    simp [h1, h2, h3]
  refine ⟨hload, ?_⟩
  unfold RAGApp.upload_and_process_file DocumentProcessor.process_file
  simp [hload]

theorem load_unsupported_extension_witness :
    lowerStr (splitextExt "file.docx") ≠ ".pdf" ∧
    lowerStr (splitextExt "file.docx") ≠ ".txt" ∧
    lowerStr (splitextExt "file.docx") ≠ ".md" ∧
    DocumentProcessor.load_document (fun _ _ => .ok []) "file.docx" =
      .error (.valueError ("Unsupported file type: " ++ splitextExt "file.docx")) ∧
    (RAGApp.upload_and_process_file (fun _ _ => .ok []) id ⟨[], 0⟩
        (some "file.docx") 1 2 3 false).2 = ⟨[], 0⟩ :=
  ⟨by decide, by decide, by decide,
   (load_unsupported_extension (fun _ _ => .ok []) id ⟨[], 0⟩ "file.docx"
     1 2 3 false (by decide) (by decide) (by decide)).1,
   (load_unsupported_extension (fun _ _ => .ok []) id ⟨[], 0⟩ "file.docx"
     1 2 3 false (by decide) (by decide) (by decide)).2⟩

/-- C6: one add_documents call on a collection whose ids are below the
fresh-id supply and duplicate-free either fails with the storage error
leaving the collection exactly as it was (all-or-nothing), or commits the
whole batch at once, assigns every inserted record a fresh id so that all
ids stay unique within the collection, and reports the count of documents
added, the embedding time, the storage time and the resulting store
size. -/
theorem newRecords_id_ge (store : VectorStore) (docs : List Document) :
    ∀ n ∈ store.newRecords docs, store.nextId ≤ n.id := by
  intro n hn
  simp [VectorStore.newRecords] at hn
  rcases hn with ⟨i, _, rfl⟩
  simp

theorem add_documents_batch_and_report (store : VectorStore)
    (docs : List Document) (tE tS tT : ℚ) (fails : Bool)
    (hid : ∀ r ∈ store.records, r.id < store.nextId)
    (hnd : (store.records.map (·.id)).Nodup) :
    (fails = true →
      VectorStore.add_documents store docs tE tS tT fails =
        (.error "StorageError: collection.add failed", store)) ∧
    (fails = false →
      VectorStore.add_documents store docs tE tS tT fails =
        (.ok { total_docs := docs.length
               embedding_time := tE
               storage_time := tS
               total_time := tT
               db_size := store.records.length + docs.length },
         { records := store.records ++ store.newRecords docs
           nextId := store.nextId + docs.length }) ∧
      ((store.records ++ store.newRecords docs).map (·.id)).Nodup) := by
  constructor
  · intro hf; subst hf; rfl
  · intro hf; subst hf
    constructor
    · unfold VectorStore.add_documents
      simp [VectorStore.newRecords]
    · rw [List.map_append, List.nodup_append]
      refine ⟨hnd, ?_, ?_⟩
      · have : (store.newRecords docs).map (·.id) =
            (List.range docs.length).map (fun i => store.nextId + i) := by
          simp [VectorStore.newRecords, List.map_map, Function.comp]
        rw [this]
        exact (List.nodup_range docs.length).map (fun a b hab => by omega)
      · intro x hx hx'
        rcases List.mem_map.mp hx with ⟨r, hr, rfl⟩
        rcases List.mem_map.mp hx' with ⟨n, hn, hxn⟩
        have h1 := hid r hr
        have h2 := newRecords_id_ge store docs n hn
        omega

theorem add_documents_batch_and_report_witness :
    (∀ r ∈ ([⟨5, 0, "old", [], 0⟩] : List CRecord), r.id < 6) ∧
    (([⟨5, 0, "old", [], 0⟩] : List CRecord).map (·.id)).Nodup ∧
    (VectorStore.add_documents ⟨[⟨5, 0, "old", [], 0⟩], 6⟩
        [⟨"a", []⟩, ⟨"b", []⟩] 1 2 3 false =
      (.ok ⟨2, 1, 2, 3, 3⟩,
       ⟨[⟨5, 0, "old", [], 0⟩, ⟨6, 1, "a", [], 0⟩, ⟨7, 2, "b", [], 0⟩], 8⟩) ∧
     (([⟨5, 0, "old", [], 0⟩, ⟨6, 1, "a", [], 0⟩, ⟨7, 2, "b", [], 0⟩] :
        List CRecord).map (·.id)).Nodup) :=
  ⟨by decide, by decide,
   (add_documents_batch_and_report ⟨[⟨5, 0, "old", [], 0⟩], 6⟩
     [⟨"a", []⟩, ⟨"b", []⟩] 1 2 3 false
     (by decide) (by decide)).2 rfl⟩

theorem metaGet_metaSet_same (m : List (String × MetaVal)) (k : String)
    (v : MetaVal) : metaGet (metaSet m k v) k = some v := by
  simp [metaGet, metaSet, List.reverse_append]

theorem metaGet_metaSet_other (m : List (String × MetaVal)) {k k' : String}
    (v : MetaVal) (h : k' ≠ k) : metaGet (metaSet m k' v) k = metaGet m k := by
  simp [metaGet, metaSet, List.reverse_append, List.find?_cons, h]

/-- C8: when loading succeeds, process_file succeeds with the composition
of load and split, and the i-th returned chunk carries chunk_id = i,
source_file = the file's base name, file_type = the file's extension, and
the text of the i-th split chunk; an empty split (no extractable text)
yields the empty sequence, not an error. -/
theorem process_file_stamps
    (loader : LoaderKind → String → Except String (List Document))
    (splitter : List Document → List Document)
    (p : String) (docs : List Document)
    (hload : DocumentProcessor.load_document loader p = .ok docs) :
    ∃ chunks, DocumentProcessor.process_file loader splitter p = .ok chunks ∧
      chunks.length = (splitter docs).length ∧
      (∀ i c, chunks[i]? = some c →
        metaGet c.metadata "chunk_id" = some (.n i) ∧
        metaGet c.metadata "source_file" = some (.s (pyBasename p)) ∧
        metaGet c.metadata "file_type" = some (.s (splitextExt p)) ∧
        ((splitter docs)[i]?).map Document.page_content = some c.page_content) ∧
      (splitter docs = [] → chunks = []) := by
  unfold DocumentProcessor.process_file
  rw [hload]
  refine ⟨_, rfl, ?_, ?_, ?_⟩
  · simp [DocumentProcessor.split_documents, List.enum_length]
  · intro i c hc
    simp only [DocumentProcessor.split_documents, List.getElem?_map,
      List.getElem?_enum] at hc
    rcases hd : (splitter docs)[i]? with _ | d
    · rw [hd] at hc; simp at hc
    · rw [hd] at hc
      simp at hc
      subst hc
      refine ⟨?_, ?_, ?_, rfl⟩ <;>
        simp [metaGet_metaSet_other, metaGet_metaSet_same]
  · intro h0
    simp [DocumentProcessor.split_documents, h0]

theorem process_file_stamps_witness :
    DocumentProcessor.load_document (fun _ _ => .ok [⟨"hello world", []⟩])
      "notes.txt" = .ok [⟨"hello world", []⟩] ∧
    (∃ chunks, DocumentProcessor.process_file
        (fun _ _ => .ok [⟨"hello world", []⟩]) id "notes.txt" = .ok chunks ∧
      chunks.length = (id [(⟨"hello world", []⟩ : Document)]).length ∧
      (∀ i c, chunks[i]? = some c →
        metaGet c.metadata "chunk_id" = some (.n i) ∧
        metaGet c.metadata "source_file" = some (.s (pyBasename "notes.txt")) ∧
        metaGet c.metadata "file_type" = some (.s (splitextExt "notes.txt")) ∧
        ((id [(⟨"hello world", []⟩ : Document)])[i]?).map Document.page_content
          = some c.page_content) ∧
      (id [(⟨"hello world", []⟩ : Document)] = [] → chunks = [])) :=
  ⟨by rfl,
   process_file_stamps (fun _ _ => .ok [⟨"hello world", []⟩]) id "notes.txt"
     [⟨"hello world", []⟩] (by rfl)⟩
